import Mathlib

/-!
Verification of the Deliveright order-routing adapter.

This file gives a shallow embedding of the adapter's core logic —
the idempotency ledger (web/utils/processedOrders.js), the fulfillment
webhook handler (the ORDERS_FULFILLED callback), the eligibility filter
(web/utils/filterDeliverightProducts.js), the origin-location resolver and
order transformer (DeliverightApi.createDeliverightOrder), the price
strategy engine (getPriceByPaymentType, sumAccessorials, formatPrice), and
the checkout quote endpoint (the /carrier route in web/index.js) — and
proves or refutes the specification's claims about them.

Modelling conventions:
- JavaScript numbers are modelled as rationals; the formulas under
  verification are exact on the inputs considered.
- A JavaScript string field that may be absent or empty is modelled as a
  Lean String where the empty string stands for both: every use site in
  the source only tests truthiness or applies a fallback of the shape
  "x or-else the empty string", under which the two are indistinguishable.
- Network calls are modelled by oracles passed as arguments: a location
  lookup is a function from location id to an optional location (where
  none covers both a not-found result and a query error, which the source
  treats identically), and the registered-locations query result is a list
  argument.  A record of which queries were issued is returned next to
  the resolved value so that query-count claims can be stated.
- Promise rejection is modelled with Except; a caught rejection that the
  source only logs is modelled by the corresponding Option or Bool.
-/

namespace Deliveright

/-- The service catalog keys of config.serviceLevels in web/config.js
(prcl, willcall, unattended, rocpa, wg, thr, blnk, rocp, roc, b2b, curb,
pick_consolidate). -/
def serviceLevelCodes : List String :=
  ["prcl", "willcall", "unattended", "rocpa", "wg", "thr", "blnk", "rocp",
   "roc", "b2b", "curb", "pick_consolidate"]

/-- Truthiness of config.serviceLevels[code]: the code is a key of the
catalog. -/
def isServiceLevel (code : String) : Bool :=
  serviceLevelCodes.contains code

/-- The payment strategy enum config.paymentStrategies:
PAID_BY_CUSTOMER = 0, PAID_BY_SHIPPER = 1, SPLIT = 2, FIXED = 3,
ROUND_NEAREST_NUMBER = 4. -/
def PAID_BY_CUSTOMER : Nat := 0

/-- PAID_BY_SHIPPER strategy tag. -/
def PAID_BY_SHIPPER : Nat := 1

/-- SPLIT strategy tag. -/
def SPLIT : Nat := 2

/-- FIXED strategy tag. -/
def FIXED : Nat := 3

/-- ROUND_NEAREST_NUMBER strategy tag. -/
def ROUND_NEAREST_NUMBER : Nat := 4

/-! ## Idempotency ledger — web/utils/processedOrders.js

The ledger is the sqlite table processed_orders with primary key
(shop, order_id).  markIfNew runs a single
INSERT ... ON CONFLICT DO NOTHING and resolves (this.changes > 0);
a storage error rejects the promise.  The table is modelled as the set of
(shop, order_id) pairs it holds, and the single conditional-insert
statement as one step on that state. -/

/-- The processed_orders table: the set of (shop, order_id) rows. -/
abbrev Ledger := List (String × String)

/-- markIfNew(shop, orderId): the atomic conditional insert.  Returns
whether a row was inserted (this.changes > 0) together with the table
after the statement.  The check and the insert are one step of this
function, mirroring the single ON CONFLICT DO NOTHING statement. -/
def markIfNew (led : Ledger) (shop orderId : String) : Bool × Ledger :=
  if (shop, orderId) ∈ led then (false, led)
  else (true, (shop, orderId) :: led)

/-- markIfNew including the sqlite callback's error branch: when the
statement errs the promise rejects with that error and the table is in
an unknown-but-irrelevant state; otherwise it resolves the conditional
insert's outcome.  Mirrors: if (err) reject(err) else
resolve(this.changes > 0). -/
def markIfNewResult (dbError : Option String) (led : Ledger)
    (shop orderId : String) : Except String (Bool × Ledger) :=
  match dbError with
  | some e => Except.error e
  | none => Except.ok (markIfNew led shop orderId)

/-- Run a sequence of markIfNew calls against an initial table, recording
each call's key and resolved value. -/
def runCalls (led : Ledger) : List (String × String) →
    List ((String × String) × Bool)
  | [] => []
  | k :: ks =>
    let r := markIfNew led k.1 k.2
    (k, r.1) :: runCalls r.2 ks

/-! ## Price strategy engine — DeliverightApi in web/classes/deliveright.js -/

/-- The payment settings block of a retailer
(retailer.settings.payment): strategy type, the SPLIT ratio, the FIXED
fee in dollars, the ROUND_NEAREST_NUMBER value list, and the price
limit.  The limit amount is an Option so that an absent amount and a
present one can be told apart; the source only ever tests its
truthiness, under which none and some 0 coincide. -/
structure PaymentSettings where
  type : Nat
  split_ratio : ℚ
  fixed : ℚ
  round_nearest : List ℚ
  limitActive : Bool
  limitAmount : Option ℚ
deriving Repr, DecidableEq

/-- A retailer settings block (retailer.settings): delivery_type
(1 = last mile only, 2 = full service) and the payment settings. -/
structure RetailerSettings where
  delivery_type : Nat
  payment : PaymentSettings
deriving Repr, DecidableEq

/-- One iteration of the ROUND_NEAREST_NUMBER loop body:
if (num > price and num - price < diff) { p = num; diff = num - price }.
The state is the pair (p, diff), with p starting as none (undefined)
and diff starting at 100000. -/
def rnStep (price : ℚ) (st : Option ℚ × ℚ) (num : ℚ) : Option ℚ × ℚ :=
  if price < num ∧ num - price < st.2 then (some num, num - price) else st

/-- The ROUND_NEAREST_NUMBER scan over settings.payment.round_nearest:
diff starts at 100000 and p as undefined, then each element is fed to
the loop body in order. -/
def roundNearestScan (price : ℚ) (nums : List ℚ) : Option ℚ × ℚ :=
  nums.foldl (rnStep price) (none, 100000)

/-- getPriceByPaymentType(price, settings): dispatch on
settings.payment.type.  PAID_BY_CUSTOMER returns the price,
PAID_BY_SHIPPER returns 0, SPLIT returns (price / 100) * (100 -
split_ratio), FIXED returns price - fixed * 100, and
ROUND_NEAREST_NUMBER runs the scan and falls back to the price when the
scan produced no value or a falsy (zero) one (if (!p) p = price).  An
unrecognized type falls out of the switch and yields undefined,
modelled as none. -/
def getPriceByPaymentType (price : ℚ) (settings : RetailerSettings) :
    Option ℚ :=
  match settings.payment.type with
  | 0 => some price
  | 1 => some 0
  | 2 => some ((price / 100) * (100 - settings.payment.split_ratio))
  | 3 => some (price - settings.payment.fixed * 100)
  | 4 =>
    let p := (roundNearestScan price settings.payment.round_nearest).1
    some (match p with
          | none => price
          | some v => if v = 0 then price else v)
  | _ => none

/-- A rate-calculation result from the shipping API: the base cost and
the accessorial_fees object, modelled as its key-to-fee-cost entries. -/
structure ShippingResult where
  cost : ℚ
  accessorial_fees : List (String × ℚ)
deriving Repr, DecidableEq

/-- sumAccessorials(shippingResult): the base cost plus the sum of the
cost field over the accessorial_fees entries (lodash sumBy over
toArray). -/
def sumAccessorials (shippingResult : ShippingResult) : ℚ :=
  shippingResult.cost + (shippingResult.accessorial_fees.map (·.2)).sum

/-- formatPrice(price, settings): when settings.payment.limit.active and
settings.payment.limit.amount are both truthy, clamp the price to the
minimum of itself and the amount; then multiply by 100. -/
def formatPrice (price : ℚ) (settings : RetailerSettings) : ℚ :=
  (match settings.payment.limitAmount with
   | some a =>
     if settings.payment.limitActive ∧ a ≠ 0 then min price a else price
   | none => price) * 100

/-! ## Origin-location resolution — createDeliverightOrder,
web/classes/deliveright.js lines 825-986 -/

/-- An origin location in the line-item / webhook shape: snake_case field
names, as tested by createDeliverightOrder.  The empty string stands for
an absent field. -/
structure Origin where
  address1 : String
  address2 : String
  city : String
  province_code : String
  zip : String
  name : String
  phone : String
deriving Repr, DecidableEq

/-- The all-empty origin, standing for the empty object used when a line
item has no origin_location. -/
def emptyOrigin : Origin :=
  ⟨"", "", "", "", "", "", ""⟩

/-- The address block of a location returned by the platform's GraphQL
location queries (camelCase provinceCode, as in the query selection
set). -/
structure GqlAddress where
  address1 : String
  address2 : String
  city : String
  provinceCode : String
  zip : String
  phone : String
deriving Repr, DecidableEq

/-- A location node returned by the platform: name plus address. -/
structure GqlLocation where
  name : String
  address : GqlAddress
deriving Repr, DecidableEq

/-- A fulfillment record of the webhook payload: id, status, optional
location_id, and the ids of the line items it covers. -/
structure Fulfillment where
  id : Nat
  status : String
  location_id : Option Nat
  line_items : List Nat
deriving Repr, DecidableEq

/-- A line item of the webhook payload, with the fields the transformer
reads.  origin_location is optional; its fields may in turn be empty. -/
structure LineItem where
  id : Nat
  sku : String
  title : String
  quantity : Nat
  price : ℚ
  grams : ℚ
  vendor : String
  product_id : Nat
  origin_location : Option Origin
deriving Repr, DecidableEq

/-- The hasValidOrigin test: the line item's origin_location has
address1, city, province_code, zip, name and phone all truthy. -/
def hasValidOrigin (o : Option Origin) : Bool :=
  match o with
  | none => false
  | some ol =>
    ol.address1 ≠ "" && ol.city ≠ "" && ol.province_code ≠ "" &&
    ol.zip ≠ "" && ol.name ≠ "" && ol.phone ≠ ""

/-- The fulfillment search:
data.fulfillments.find(f => f.line_items.some(li => li.id === line_item.id)),
i.e. the first fulfillment whose line-item id set contains the item's id,
regardless of whether it has a location_id. -/
def findFulfillment (li : LineItem) (fulfillments : List Fulfillment) :
    Option Fulfillment :=
  fulfillments.find? (fun f => f.line_items.contains li.id)

/-- The mapping applied to a location fetched for a fulfillment:
snake_case fields from the GraphQL node, address2 defaulted to the empty
string, name and phone passed through. -/
def mapFulfillmentLocation (loc : GqlLocation) : Origin :=
  { address1 := loc.address.address1
    address2 := loc.address.address2
    city := loc.address.city
    province_code := loc.address.provinceCode
    zip := loc.address.zip
    name := loc.name
    phone := loc.address.phone }

/-- Completeness check applied to the mapped fulfillment location:
address1, city, province_code, zip and phone all truthy (name is not
required at this tier). -/
def tier2Complete (o : Origin) : Bool :=
  o.address1 ≠ "" && o.city ≠ "" && o.province_code ≠ "" &&
  o.zip ≠ "" && o.phone ≠ ""

/-- The fulfillment-location tier in isolation: if the first fulfillment
containing the line item has a location_id, look the location up and map
it; otherwise produce nothing.  A lookup miss (not found, or a query
error, which the source handles identically) also produces nothing. -/
def tier2Mapped (li : LineItem) (fulfillments : List Fulfillment)
    (lookupLocation : Nat → Option GqlLocation) : Option Origin :=
  match findFulfillment li fulfillments with
  | some f =>
    match f.location_id with
    | some lid => (lookupLocation lid).map mapFulfillmentLocation
    | none => none
  | none => none

/-- Whether the fulfillment tier issues the location-by-id query: the
first fulfillment containing the line item exists and has a
location_id. -/
def tier2Queries (li : LineItem) (fulfillments : List Fulfillment) : Bool :=
  match findFulfillment li fulfillments with
  | some f => f.location_id.isSome
  | none => false

/-- The completeness test of the default-location tier:
loc.address.address1, city, zip and phone all truthy (province code is
not required at this tier). -/
def defaultLocComplete (loc : GqlLocation) : Bool :=
  loc.address.address1 ≠ "" && loc.address.city ≠ "" &&
  loc.address.zip ≠ "" && loc.address.phone ≠ ""

/-- The mapping applied to the chosen default location: empty-string
fallbacks for every field except city, which falls back to a single
space. -/
def mapDefaultLocation (loc : GqlLocation) : Origin :=
  { address1 := loc.address.address1
    address2 := loc.address.address2
    city := if loc.address.city = "" then " " else loc.address.city
    province_code := loc.address.provinceCode
    zip := loc.address.zip
    name := loc.name
    phone := loc.address.phone }

/-- The default-location tier: fetch the registered locations (first 10),
pick the first complete-enough one, else the very first, and map it;
when the list is empty the current origin value is left as it stands.
The argument current is whatever origin_location held when this tier is
reached (the original value, or the incomplete tier-two mapping). -/
def tier3Resolve (current : Origin) (registered : List GqlLocation) :
    Origin :=
  let locations := registered.take 10
  match (locations.find? defaultLocComplete).orElse (fun _ => locations.head?) with
  | some loc => mapDefaultLocation loc
  | none => current

/-- Which platform queries the resolution of one line item issued. -/
structure QueryLog where
  locationByIdQueried : Bool
  locationsListQueried : Bool
deriving Repr, DecidableEq

/-- The per-line-item origin resolution of createDeliverightOrder: keep a
complete attached origin as-is with no queries; otherwise try the
fulfillment tier (issuing its query when applicable), accepting the
mapped location only when complete; otherwise fall through to the
default-location tier, which always issues the list query. -/
def resolveOrigin (li : LineItem) (fulfillments : List Fulfillment)
    (lookupLocation : Nat → Option GqlLocation)
    (registered : List GqlLocation) : Origin × QueryLog :=
  let origin0 := li.origin_location.getD emptyOrigin
  if hasValidOrigin li.origin_location then
    (origin0, ⟨false, false⟩)
  else
    let byId := tier2Queries li fulfillments
    match tier2Mapped li fulfillments lookupLocation with
    | some mapped =>
      if tier2Complete mapped then (mapped, ⟨byId, false⟩)
      else (tier3Resolve mapped registered, ⟨byId, true⟩)
    | none => (tier3Resolve origin0 registered, ⟨byId, true⟩)

/-! ## Order transformer — createDeliverightOrder,
web/classes/deliveright.js lines 988-1190

The transformer's validation pass only writes log lines; the embedded
function below is total, reflecting that no path between the start of
construction and the return statement aborts it. -/

/-- The customer object of the webhook payload. -/
structure CustomerInput where
  first_name : String
  last_name : String
  email : String
  phone : String
deriving Repr, DecidableEq

/-- An address of the webhook payload (shipping_address or
customer_address). -/
structure AddrInput where
  address1 : String
  address2 : String
  city : String
  province_code : String
  zip : String
  phone : String
deriving Repr, DecidableEq

/-- The order webhook payload, with the fields the transformer reads.
shipping_lines is the list of shipping-line codes. -/
structure OrderPayload where
  id : Option Nat
  name : String
  order_number : Option Nat
  customer : Option CustomerInput
  shipping_address : Option AddrInput
  customer_address : Option AddrInput
  line_items : List LineItem
  fulfillments : List Fulfillment
  shipping_lines : List String
deriving Repr, DecidableEq

/-- A downstream address block (state is the origin's province_code). -/
structure DrlAddress where
  address1 : String
  address2 : String
  city : String
  state : String
  zip : String
deriving Repr, DecidableEq

/-- The vendor_info block of a downstream line item. -/
structure VendorInfo where
  first_name : String
  last_name : String
  address : DrlAddress
  company : String
  phone : String
  email : String
  receiving_hours : String
deriving Repr, DecidableEq

/-- The freight_info block of a downstream line item. -/
structure FreightInfo where
  is_fob : Bool
  vendor_info : VendorInfo
deriving Repr, DecidableEq

/-- A downstream line item. -/
structure DrlItem where
  sku : String
  name : String
  quantity : Nat
  retail_value : ℚ
  weight : ℚ
  vendor : String
  freight_info : FreightInfo
deriving Repr, DecidableEq

/-- The downstream customer block. -/
structure DrlCustomer where
  first_name : String
  last_name : String
  address : DrlAddress
  company : String
  phone1_number : String
  email : String
deriving Repr, DecidableEq

/-- The raw-payload mirror entry for one line item
(payload.shopify_raw.line_items). -/
structure RawLineItem where
  id : Nat
  title : String
  quantity : Nat
  price : ℚ
  grams : ℚ
  vendor : String
  product_id : Nat
deriving Repr, DecidableEq

/-- The assembled downstream order document (the order object; the
static options block carries no data of interest). -/
structure OrderDoc where
  source : String
  sales_order_number : String
  ref_order_number : String
  shopify_order_number : Option Nat
  raw_id : Option Nat
  raw_name : String
  raw_line_items : List RawLineItem
  customer : DrlCustomer
  line_items : List DrlItem
  retailer_identifier : String
  service_level : String
deriving Repr, DecidableEq

/-- Rounding to two decimals as applied by
Number((grams / 453.592).toFixed(2)), modelled exactly on rationals. -/
def round2 (q : ℚ) : ℚ :=
  (round (q * 100) : ℤ) / 100

/-- The mapping of one resolved line item to the downstream shape:
sku or else the product id rendered as a string, weight in pounds
rounded to two decimals (0 for missing grams), the retailer-level
is_fob flag, and the vendor_info address drawn from the resolved
origin. -/
def mkDrlItem (is_fob : Bool) (li : LineItem) (origin : Origin) : DrlItem :=
  { sku := if li.sku ≠ "" then li.sku else toString li.product_id
    name := li.title
    quantity := li.quantity
    retail_value := li.price
    weight := if li.grams ≠ 0 then round2 (li.grams / 453.592) else 0
    vendor := li.vendor
    freight_info :=
      { is_fob
        vendor_info :=
          { first_name := ""
            last_name := ""
            address :=
              { address1 := origin.address1
                address2 := origin.address2
                city := origin.city
                state := origin.province_code
                zip := origin.zip }
            company := origin.name
            phone := origin.phone
            email := ""
            receiving_hours := "" } } }

/-- A retailer record as used by the transformer and the quote path. -/
structure Retailer where
  pricing_type : String
  settings : RetailerSettings
deriving Repr, DecidableEq

/-- LAST_MILE_ONLY delivery type constant. -/
def LAST_MILE_ONLY : Nat := 1

/-- createDeliverightOrder(data, retailer, store_id): resolve each line
item's origin and map it, build the customer block from the shipping
address (falling back to customer_address), and assemble the envelope.
The location lookup oracle and the registered-locations list stand for
the platform GraphQL queries. -/
def createDeliverightOrder (data : OrderPayload) (retailer : Retailer)
    (store_id : String) (lookupLocation : Nat → Option GqlLocation)
    (registered : List GqlLocation) : OrderDoc :=
  let is_fob := retailer.settings.delivery_type = LAST_MILE_ONLY
  let line_items := data.line_items.map (fun li =>
    mkDrlItem is_fob li
      (resolveOrigin li data.fulfillments lookupLocation registered).1)
  let customerAddress :=
    ((data.shipping_address).orElse (fun _ => data.customer_address)).getD
      ⟨"", "", "", "", "", ""⟩
  let customerPhone :=
    match data.customer with
    | some c => c.phone
    | none => ""
  let customer : DrlCustomer :=
    { first_name := (data.customer.map (·.first_name)).getD ""
      last_name := (data.customer.map (·.last_name)).getD ""
      address :=
        { address1 := customerAddress.address1
          address2 := customerAddress.address2
          city := customerAddress.city
          state := customerAddress.province_code
          zip := customerAddress.zip }
      company := ""
      phone1_number :=
        if customerAddress.phone ≠ "" then customerAddress.phone
        else customerPhone
      email := (data.customer.map (·.email)).getD "" }
  { source := "shopify"
    sales_order_number := data.name
    ref_order_number :=
      match data.id with
      | some i => toString i
      | none => ""
    shopify_order_number := data.order_number
    raw_id := data.id
    raw_name := data.name
    raw_line_items := data.line_items.map (fun li =>
      { id := li.id
        title := li.title
        quantity := li.quantity
        price := li.price
        grams := li.grams
        vendor := li.vendor
        product_id := li.product_id })
    customer
    line_items
    retailer_identifier := store_id
    service_level :=
      match data.shipping_lines.head? with
      | some c => if c ≠ "" then c else "STANDARD"
      | none => "STANDARD" }

/-! ## Eligibility filter — web/utils/filterDeliverightProducts.js -/

/-- A product as returned by the batch tag query: numeric id plus its
tag list. -/
structure Product where
  product_id : Nat
  tags : List String
deriving Repr, DecidableEq

/-- A cart item as seen by the filter and the quote path: product id,
weight, quantity, and the tags attached by the filter. -/
structure CartItem where
  product_id : Nat
  grams : ℚ
  quantity : ℚ
  tags : List String
deriving Repr, DecidableEq

/-- productFilterTags(p): keep only the tags that are configured service
level codes. -/
def productFilterTags (p : Product) : Product :=
  { p with tags := p.tags.filter (fun s => serviceLevelCodes.contains s) }

/-- addServiceTags(products)(item): overwrite the item's tags with those
of its product.  In the source a missing product would make the property
access throw; every call site reaches it only for ids drawn from the
products list, so the none branch below is unreachable there. -/
def addServiceTags (products : List Product) (item : CartItem) : CartItem :=
  match products.find? (fun p => p.product_id = item.product_id) with
  | some p => { item with tags := p.tags }
  | none => { item with tags := [] }

/-- The default export of filterDeliverightProducts.js, after the batch
tag query whose result is the products argument.  The source computes
products.map(productFilterTags).filter(p => p.tags.length > 0) but never
assigns the result, so filtered_ids is read off the unmodified products
list and the attached tags are the products' original tag lists. -/
def filterDeliverightProducts (products : List Product)
    (items : List CartItem) : List CartItem :=
  let _discarded :=
    (products.map productFilterTags).filter (fun p => p.tags.length > 0)
  let filtered_ids := products.map (·.product_id)
  (items.filter (fun p => filtered_ids.contains p.product_id)).map
    (addServiceTags products)

/-- The filter as its own documentation and the specification describe
it (compute, per product, the intersection of its tags with the
configured service-level codes; retain only items whose product has at
least one matching tag; attach the matched tags): the variant obtained
by actually assigning the mapped-and-filtered products list.  Kept next
to the source-faithful definition to state how the two diverge. -/
def filterDeliverightProductsIntended (products : List Product)
    (items : List CartItem) : List CartItem :=
  let products' :=
    (products.map productFilterTags).filter (fun p => p.tags.length > 0)
  let filtered_ids := products'.map (·.product_id)
  (items.filter (fun p => filtered_ids.contains p.product_id)).map
    (addServiceTags products')

/-! ## Fulfillment event handler — the ORDERS_FULFILLED callback -/

/-- The externally visible outcome of one run of the ORDERS_FULFILLED
callback: whether the ledger's conditional insert was invoked, whether
the transformation-and-submission call (newOrder) was reached, and
whether an error was caught and logged by the callback's outer handler.
The callback itself always returns normally. -/
structure FulfilledOutcome where
  ledgerCalled : Bool
  submitted : Bool
  errorLogged : Bool
deriving Repr, DecidableEq

/-- orders_fulfilled_callback(topic, shop, body, webhookId), abstracted
over its external effects: code is the first shipping line's code of the
parsed payload; storeFetch is the outcome of deliveright.getStore;
ledgerOutcome is the promise returned by markIfNew for (shop,
payload.id); submitOk tells whether newOrder resolved.  The
location-update and filtering steps sit in an inner try whose failures
are only logged and do not alter control flow, so they need no
parameter.  The ledger call sits outside that inner try: its rejection
propagates to the outer catch, which logs and returns. -/
def orders_fulfilled_callback (code : Option String) (storeFetch : Bool)
    (ledgerOutcome : Except String Bool) (submitOk : Bool) :
    FulfilledOutcome :=
  if storeFetch = false then
    { ledgerCalled := false, submitted := false, errorLogged := true }
  else
    let isDeliverightOrder :=
      match code with
      | some c => isServiceLevel c
      | none => false
    if isDeliverightOrder then
      match ledgerOutcome with
      | Except.error _ =>
        { ledgerCalled := true, submitted := false, errorLogged := true }
      | Except.ok false =>
        { ledgerCalled := true, submitted := false, errorLogged := false }
      | Except.ok true =>
        { ledgerCalled := true, submitted := true,
          errorLogged := submitOk = false }
    else
      { ledgerCalled := false, submitted := false, errorLogged := false }

/-! ## Checkout quote endpoint — app.post("/carrier") in web/index.js -/

/-- One entry of the rates array answered to the platform: the service
level's code together with its computed total_price (null, modelled as
none, when the per-level calculation failed). -/
structure RateEntry where
  code : String
  total_price : Option ℚ
deriving Repr, DecidableEq

/-- The rate request body (the rate object): origin and destination
postal codes plus the cart items. -/
structure RateRequest where
  origin_postal_code : String
  destination_postal_code : String
  items : List CartItem
deriving Repr, DecidableEq

/-- The origin rewrite at the top of the /carrier handler: when the
retailer's delivery_type equals LAST_MILE_ONLY the request's origin
postal code is overwritten with the literal "fob"; otherwise the request
is untouched. -/
def carrierAdjustOrigin (delivery_type : Nat) (req : RateRequest) :
    RateRequest :=
  if delivery_type = LAST_MILE_ONLY then
    { req with origin_postal_code := "fob" }
  else req

/-- The query parameters of one calculateShippingRate request, as
assembled into the shipping URL. -/
structure ShippingQuery where
  retailer_identifier : String
  zip : String
  weight : ℚ
  pickup_region : String
  service_level : String
  pricing_type : String
  item_weights : List ℚ
deriving Repr, DecidableEq

/-- The request-building part of calculateShippingRate: total weight in
pounds, per-item weights, destination zip, and pickup_region taken from
the request's origin postal code. -/
def rateRequestParams (identifier : String) (req : RateRequest)
    (serviceLevel : String) (retailer : Retailer) : ShippingQuery :=
  { retailer_identifier := identifier
    zip := req.destination_postal_code
    weight := (req.items.map (fun p => p.grams * p.quantity)).sum / 453.592
    pickup_region := req.origin_postal_code
    service_level := serviceLevel
    pricing_type :=
      if retailer.pricing_type ≠ "" then retailer.pricing_type else "1"
    item_weights := req.items.map (fun p => (p.grams * p.quantity) / 453.592) }

/-- The per-level loop of the /carrier handler, run on the filtered
items: collect the distinct tags in first-appearance order, skip the
ones that are not configured service levels, and for each remaining one
push an entry whose total_price is the calculation's outcome (none when
it threw, in which case totalPrice stays null but the entry is pushed
all the same).  An empty filtered list yields no rates. -/
def carrierRates (filtered_items : List CartItem)
    (calcRate : String → Option ℚ) : List RateEntry :=
  if filtered_items.length > 0 then
    let all_tags := filtered_items.flatMap (·.tags)
    let service_levels := all_tags.eraseDups
    (service_levels.filter isServiceLevel).map
      (fun s => { code := s, total_price := calcRate s })
  else []

/-- The /carrier handler after a successful store fetch: HTTP status and
rates body.  The origin rewrite happens before the eligibility filter
and before any rate calculation; the response status is 200 regardless
of how many (possibly zero) rate entries remain. -/
def carrierEndpoint (retailer : Retailer) (req : RateRequest)
    (products : List Product) (calcRate : String → Option ℚ) :
    Nat × List RateEntry :=
  let req' := carrierAdjustOrigin retailer.settings.delivery_type req
  let filtered_items := filterDeliverightProducts products req'.items
  (200, carrierRates filtered_items calcRate)

/-- The shipping-rate requests the /carrier handler issues for one quote:
one per retained distinct service level, each built from the
origin-adjusted request restricted to the filtered items. -/
def carrierHandlerRequests (identifier : String) (retailer : Retailer)
    (req : RateRequest) (products : List Product) : List ShippingQuery :=
  let req' := carrierAdjustOrigin retailer.settings.delivery_type req
  let filtered_items := filterDeliverightProducts products req'.items
  let filtered_request := { req' with items := filtered_items }
  let service_levels := (filtered_items.flatMap (·.tags)).eraseDups
  (service_levels.filter isServiceLevel).map
    (fun s => rateRequestParams identifier filtered_request s retailer)

/-! ## Supporting lemmas -/

/-- Counting the true resolutions for one key across a call sequence:
zero when the key is already in the table, otherwise one exactly when
the key occurs among the calls. -/
lemma runCalls_countP_true (led : Ledger) (calls : List (String × String))
    (key : String × String) :
    ((runCalls led calls).countP (fun p => decide (p.1 = key) && p.2)) =
      (if key ∈ led then 0 else if key ∈ calls then 1 else 0) := by
  induction calls generalizing led with
  | nil =>
    simp [runCalls]
  | cons k ks ih =>
    obtain ⟨s, o⟩ := k
    by_cases hmem : (s, o) ∈ led
    · simp only [runCalls, markIfNew, hmem, if_pos, List.countP_cons]
      rw [ih]
      by_cases hkey : key ∈ led
      · simp [hkey]
      · have hne : key ≠ (s, o) := fun h => hkey (h ▸ hmem)
        simp [hkey, List.mem_cons, hne, Ne.symm hne]
    · simp only [runCalls, markIfNew, hmem, if_neg, not_false_iff,
        List.countP_cons]
      by_cases hkey : key = (s, o)
      · subst hkey
        rw [ih]
        simp [hmem, List.mem_cons]
      · rw [ih]
        have hne : ¬((s, o) = key) := fun h => hkey h.symm
        simp only [List.mem_cons, hne, decide_eq_true_eq, if_neg,
          Bool.and_eq_true, decide_eq_true_iff, false_and, if_false]
        by_cases hkl : key ∈ led
        · simp [hkl, hkey]
        · simp [hkl, hkey]

/-- Full characterization of the ROUND_NEAREST_NUMBER fold from any
state satisfying its invariant (the held candidate is greater than the
price and the held diff is its gap): the diff never grows, the held
candidate always satisfies the invariant, every produced candidate comes
from the state or the list, a held candidate is never dropped, any list
element whose gap beats the incoming diff forces a candidate at least as
good, and starting from no candidate any produced candidate's gap is
strictly below the incoming diff. -/
lemma rnScan_fold_facts (price : ℚ) (nums : List ℚ) :
    ∀ st : Option ℚ × ℚ,
      (∀ w, st.1 = some w → price < w ∧ st.2 = w - price) →
      ((nums.foldl (rnStep price) st).2 ≤ st.2) ∧
      (∀ w, (nums.foldl (rnStep price) st).1 = some w →
        price < w ∧ (nums.foldl (rnStep price) st).2 = w - price) ∧
      (∀ w, (nums.foldl (rnStep price) st).1 = some w →
        st.1 = some w ∨ w ∈ nums) ∧
      (st.1.isSome = true →
        (nums.foldl (rnStep price) st).1.isSome = true) ∧
      (∀ n ∈ nums, price < n → n - price < st.2 →
        (nums.foldl (rnStep price) st).1.isSome = true ∧
        (nums.foldl (rnStep price) st).2 ≤ n - price) ∧
      (st.1 = none → ∀ w, (nums.foldl (rnStep price) st).1 = some w →
        (nums.foldl (rnStep price) st).2 < st.2) := by
  induction nums with
  | nil =>
    intro st hinv
    refine ⟨le_refl _, hinv, fun w hw => Or.inl hw, fun h => h, ?_, ?_⟩
    · intro n hn
      exact absurd hn (List.not_mem_nil n)
    · intro hnone w hw
      simp only [List.foldl_nil] at hw
      rw [hnone] at hw
      exact Option.noConfusion hw
  | cons num ns ih =>
    intro st hinv
    simp only [List.foldl_cons]
    by_cases hacc : price < num ∧ num - price < st.2
    · have hstep : rnStep price st num = (some num, num - price) := by
        simp [rnStep, hacc]
      rw [hstep]
      have hinv2 : ∀ w, (some num, num - price).1 = some w →
          price < w ∧ (some num, num - price).2 = w - price := by
        intro w hw
        simp only at hw
        obtain rfl : num = w := Option.some_inj.mp hw
        exact ⟨hacc.1, rfl⟩
      obtain ⟨ih1, ih2, ih3, ih4, ih5, _⟩ := ih (some num, num - price) hinv2
      have hres_some : (ns.foldl (rnStep price)
          (some num, num - price)).1.isSome = true := ih4 rfl
      refine ⟨le_trans ih1 (le_of_lt hacc.2), ih2, ?_, fun _ => hres_some,
        ?_, ?_⟩
      · intro w hw
        rcases ih3 w hw with h | h
        · simp only at h
          obtain rfl : num = w := Option.some_inj.mp h
          exact Or.inr (List.mem_cons_self _ _)
        · exact Or.inr (List.mem_cons_of_mem _ h)
      · intro n hn hgt hgap
        refine ⟨hres_some, ?_⟩
        rcases List.mem_cons.mp hn with rfl | hns
        · exact ih1
        · by_cases hbeat : n - price < num - price
          · exact (ih5 n hns hgt hbeat).2
          · exact le_trans ih1 (le_of_not_lt hbeat)
      · intro _ w _
        exact lt_of_le_of_lt ih1 hacc.2
    · have hstep : rnStep price st num = st := by
        simp [rnStep, hacc]
      rw [hstep]
      obtain ⟨ih1, ih2, ih3, ih4, ih5, ih6⟩ := ih st hinv
      refine ⟨ih1, ih2, ?_, ih4, ?_, ih6⟩
      · intro w hw
        rcases ih3 w hw with h | h
        · exact Or.inl h
        · exact Or.inr (List.mem_cons_of_mem _ h)
      · intro n hn hgt hgap
        rcases List.mem_cons.mp hn with rfl | hns
        · exact absurd ⟨hgt, hgap⟩ hacc
        · exact ih5 n hns hgt hgap

/-- The scan picks the smallest list element strictly greater than the
price whenever that element's gap is below the 100000 bound. -/
lemma roundNearestScan_eq_min (price : ℚ) (nums : List ℚ) (m : ℚ)
    (hmem : m ∈ nums) (hgt : price < m)
    (hmin : ∀ n ∈ nums, price < n → m ≤ n)
    (hgap : m - price < 100000) :
    (roundNearestScan price nums).1 = some m := by
  obtain ⟨h1, h2, h3, h4, h5, h6⟩ :=
    rnScan_fold_facts price nums (none, 100000) (by simp)
  have h5m := h5 m hmem hgt hgap
  unfold roundNearestScan
  rcases hres : (nums.foldl (rnStep price) (none, 100000)).1 with _ | w
  · rw [hres] at h5m
    exact absurd h5m.1 (by simp)
  · have hw := h2 w hres
    have hwmem : w ∈ nums := by
      rcases h3 w hres with h | h
      · exact Option.noConfusion h
      · exact h
    have hle1 : m ≤ w := hmin w hwmem hw.1
    have hle2 : w ≤ m := by
      have := h5m.2
      rw [hw.2] at this
      linarith
    rw [le_antisymm hle2 hle1]

/-- The scan yields no candidate when every element strictly greater
than the price overshoots it by at least 100000. -/
lemma roundNearestScan_none (price : ℚ) (nums : List ℚ)
    (hall : ∀ n ∈ nums, price < n → 100000 ≤ n - price) :
    (roundNearestScan price nums).1 = none := by
  obtain ⟨h1, h2, h3, h4, h5, h6⟩ :=
    rnScan_fold_facts price nums (none, 100000) (by simp)
  unfold roundNearestScan
  rcases hres : (nums.foldl (rnStep price) (none, 100000)).1 with _ | w
  · rfl
  · exfalso
    have hw := h2 w hres
    have hwmem : w ∈ nums := by
      rcases h3 w hres with h | h
      · exact Option.noConfusion h
      · exact h
    have hlt := h6 rfl w hres
    rw [hw.2] at hlt
    exact absurd (hall w hwmem hw.1) (not_le.mpr hlt)

/-- Any candidate the scan yields is strictly greater than the price. -/
lemma roundNearestScan_gt (price : ℚ) (nums : List ℚ) (w : ℚ)
    (hw : (roundNearestScan price nums).1 = some w) : price < w := by
  obtain ⟨_, h2, _, _, _, _⟩ :=
    rnScan_fold_facts price nums (none, 100000) (by simp)
  exact (h2 w hw).1

/-! ## Claims -/

/-- C1: markIfNew resolves true exactly when no ledger row for the
(tenant, orderId) pair existed before the call, and that call creates
the row; every later call for the same pair resolves false, so across
any sequence of calls for a given pair exactly one call resolves true;
the check-and-insert is one atomic step of the ledger state (the single
conditional-insert statement), and a storage error makes the promise
reject rather than resolve. -/
theorem C1_ledger_exactly_once (led : Ledger) (shop orderId : String)
    (calls : List (String × String))
    (hfresh : (shop, orderId) ∉ led)
    (hcalled : (shop, orderId) ∈ calls) :
    ((markIfNew led shop orderId).1 = true) ∧
    ((shop, orderId) ∈ (markIfNew led shop orderId).2) ∧
    (∀ led2 : Ledger, (shop, orderId) ∈ led2 →
      (markIfNew led2 shop orderId).1 = false) ∧
    ((runCalls led calls).countP
        (fun p => decide (p.1 = (shop, orderId)) && p.2) = 1) ∧
    (∀ e : String, ∀ led3 : Ledger,
      markIfNewResult (some e) led3 shop orderId = Except.error e) := by
  refine ⟨?_, ?_, ?_, ?_, ?_⟩
  · simp [markIfNew, hfresh]
  · simp [markIfNew, hfresh]
  · intro led2 h2
    simp [markIfNew, h2]
  · rw [runCalls_countP_true]
    simp [hfresh, hcalled]
  · intro e led3
    rfl

/-- C1 witness: a fresh pair called twice resolves true exactly once. -/
theorem C1_ledger_exactly_once_witness :
    ((markIfNew [] "shop.example" "1001").1 = true) ∧
    (("shop.example", "1001") ∈ (markIfNew [] "shop.example" "1001").2) ∧
    (∀ led2 : Ledger, ("shop.example", "1001") ∈ led2 →
      (markIfNew led2 "shop.example" "1001").1 = false) ∧
    ((runCalls []
        [("shop.example", "1001"), ("shop.example", "1001")]).countP
        (fun p => decide (p.1 = ("shop.example", "1001")) && p.2) = 1) ∧
    (∀ e : String, ∀ led3 : Ledger,
      markIfNewResult (some e) led3 "shop.example" "1001" =
        Except.error e) :=
  C1_ledger_exactly_once [] "shop.example" "1001"
    [("shop.example", "1001"), ("shop.example", "1001")]
    (by decide) (by decide)

/-- C2: the ORDERS_FULFILLED handler calls markIfNew only when the first
shipping line's code is a configured service level; an unrecognized code
terminates with no ledger write, no transformation, no submission and no
error; newOrder is reached only when markIfNew resolved true; a
duplicate (false) terminates without submission and without error; and a
markIfNew rejection results in no submission. -/
theorem C2_handler_gating (code : Option String) (storeFetch : Bool)
    (ledgerOutcome : Except String Bool) (submitOk : Bool) :
    ((orders_fulfilled_callback code storeFetch ledgerOutcome
        submitOk).ledgerCalled = true →
      storeFetch = true ∧ ∃ c, code = some c ∧ isServiceLevel c = true) ∧
    (storeFetch = true →
      (∀ c, code = some c → isServiceLevel c = false →
        orders_fulfilled_callback code storeFetch ledgerOutcome submitOk =
          ⟨false, false, false⟩)) ∧
    ((orders_fulfilled_callback code storeFetch ledgerOutcome
        submitOk).submitted = true → ledgerOutcome = Except.ok true) ∧
    (ledgerOutcome = Except.ok false →
      (orders_fulfilled_callback code storeFetch ledgerOutcome
          submitOk).submitted = false ∧
      ((orders_fulfilled_callback code storeFetch ledgerOutcome
          submitOk).ledgerCalled = true →
        (orders_fulfilled_callback code storeFetch ledgerOutcome
            submitOk).errorLogged = false)) ∧
    (∀ e, ledgerOutcome = Except.error e →
      (orders_fulfilled_callback code storeFetch ledgerOutcome
          submitOk).submitted = false) := by
  cases storeFetch with
  | false =>
    simp [orders_fulfilled_callback]
  | true =>
    cases code with
    | none =>
      cases ledgerOutcome with
      | error e => simp [orders_fulfilled_callback]
      | ok b => cases b <;> simp [orders_fulfilled_callback]
    | some c =>
      by_cases hc : isServiceLevel c = true
      · cases ledgerOutcome with
        | error e => simp [orders_fulfilled_callback, hc]
        | ok b => cases b <;> simp [orders_fulfilled_callback, hc]
      · have hc2 : isServiceLevel c = false := by
          cases h : isServiceLevel c
          · rfl
          · exact absurd h hc
        cases ledgerOutcome with
        | error e => simp [orders_fulfilled_callback, hc2]
        | ok b => cases b <;> simp [orders_fulfilled_callback, hc2]

/-- C2 witness: the gating facts at a concrete run (unrecognized code
"unknown_code", successful store fetch, a true ledger claim). -/
theorem C2_handler_gating_witness :
    ((orders_fulfilled_callback (some "unknown_code") true
        (Except.ok true) true).ledgerCalled = true →
      true = true ∧ ∃ c, (some "unknown_code" : Option String) = some c ∧
        isServiceLevel c = true) ∧
    (true = true →
      (∀ c, (some "unknown_code" : Option String) = some c →
        isServiceLevel c = false →
        orders_fulfilled_callback (some "unknown_code") true
            (Except.ok true) true =
          ⟨false, false, false⟩)) ∧
    ((orders_fulfilled_callback (some "unknown_code") true
        (Except.ok true) true).submitted = true →
      (Except.ok true : Except String Bool) = Except.ok true) ∧
    ((Except.ok true : Except String Bool) = Except.ok false →
      (orders_fulfilled_callback (some "unknown_code") true
          (Except.ok true) true).submitted = false ∧
      ((orders_fulfilled_callback (some "unknown_code") true
          (Except.ok true) true).ledgerCalled = true →
        (orders_fulfilled_callback (some "unknown_code") true
            (Except.ok true) true).errorLogged = false)) ∧
    (∀ e, (Except.ok true : Except String Bool) = Except.error e →
      (orders_fulfilled_callback (some "unknown_code") true
          (Except.ok true) true).submitted = false) :=
  C2_handler_gating (some "unknown_code") true (Except.ok true) true

/-- C5: the accessorial sum equals the rate cost plus the sum of the
accessorial fee costs (concretely 8000 + 1500 + 500 = 10000), and the
payment strategies satisfy: PAID_BY_CUSTOMER returns the price
unchanged, PAID_BY_SHIPPER returns 0, SPLIT returns
price * (100 - split_ratio) / 100 (50 on 10000 gives 5000), and FIXED
returns price - fixed * 100 and may be negative (99 on 9500 gives
-400). -/
theorem C5_payment_strategies (price : ℚ) (s : RetailerSettings) :
    (sumAccessorials ⟨8000, [("a", 1500), ("b", 500)]⟩ = 10000) ∧
    (s.payment.type = PAID_BY_CUSTOMER →
      getPriceByPaymentType price s = some price) ∧
    (s.payment.type = PAID_BY_SHIPPER →
      getPriceByPaymentType price s = some 0) ∧
    (s.payment.type = SPLIT →
      getPriceByPaymentType price s =
        some (price * (100 - s.payment.split_ratio) / 100)) ∧
    (s.payment.type = FIXED →
      getPriceByPaymentType price s =
        some (price - s.payment.fixed * 100)) ∧
    (getPriceByPaymentType 10000 ⟨2, ⟨SPLIT, 50, 0, [], false, none⟩⟩ =
      some 5000) ∧
    (getPriceByPaymentType 9500 ⟨2, ⟨FIXED, 0, 99, [], false, none⟩⟩ =
      some (-400) ∧ (-400 : ℚ) < 0) := by
  refine ⟨by norm_num [sumAccessorials], ?_, ?_, ?_, ?_, ?_, ?_⟩
  · intro h
    simp [getPriceByPaymentType, h, PAID_BY_CUSTOMER]
  · intro h
    simp [getPriceByPaymentType, h, PAID_BY_SHIPPER]
  · intro h
    simp only [getPriceByPaymentType, h, SPLIT]
    rw [Option.some_inj]
    ring
  · intro h
    simp [getPriceByPaymentType, h, FIXED]
  · norm_num [getPriceByPaymentType, SPLIT]
  · norm_num [getPriceByPaymentType, FIXED]

/-- C5 witness: the strategy equations at a concrete price and settings
(type PAID_BY_CUSTOMER, price 10000). -/
theorem C5_payment_strategies_witness :
    (sumAccessorials ⟨8000, [("a", 1500), ("b", 500)]⟩ = 10000) ∧
    ((⟨2, ⟨0, 0, 0, [], false, none⟩⟩ : RetailerSettings).payment.type =
        PAID_BY_CUSTOMER →
      getPriceByPaymentType 10000 ⟨2, ⟨0, 0, 0, [], false, none⟩⟩ =
        some 10000) ∧
    ((⟨2, ⟨0, 0, 0, [], false, none⟩⟩ : RetailerSettings).payment.type =
        PAID_BY_SHIPPER →
      getPriceByPaymentType 10000 ⟨2, ⟨0, 0, 0, [], false, none⟩⟩ =
        some 0) ∧
    ((⟨2, ⟨0, 0, 0, [], false, none⟩⟩ : RetailerSettings).payment.type =
        SPLIT →
      getPriceByPaymentType 10000 ⟨2, ⟨0, 0, 0, [], false, none⟩⟩ =
        some (10000 * (100 -
          (⟨2, ⟨0, 0, 0, [], false, none⟩⟩ :
            RetailerSettings).payment.split_ratio) / 100)) ∧
    ((⟨2, ⟨0, 0, 0, [], false, none⟩⟩ : RetailerSettings).payment.type =
        FIXED →
      getPriceByPaymentType 10000 ⟨2, ⟨0, 0, 0, [], false, none⟩⟩ =
        some (10000 -
          (⟨2, ⟨0, 0, 0, [], false, none⟩⟩ :
            RetailerSettings).payment.fixed * 100)) ∧
    (getPriceByPaymentType 10000 ⟨2, ⟨SPLIT, 50, 0, [], false, none⟩⟩ =
      some 5000) ∧
    (getPriceByPaymentType 9500 ⟨2, ⟨FIXED, 0, 99, [], false, none⟩⟩ =
      some (-400) ∧ (-400 : ℚ) < 0) :=
  C5_payment_strategies 10000 ⟨2, ⟨0, 0, 0, [], false, none⟩⟩

/-- C7: formatPrice returns min(price, ceiling amount) * 100 when the
price ceiling is active and its amount is set (truthy), and price * 100
otherwise; with an active ceiling of 10000 an input of 12000 is capped
to 10000 before the final scaling, giving 1000000. -/
theorem C7_formatPrice_ceiling (price : ℚ) (s : RetailerSettings) :
    (∀ a : ℚ, s.payment.limitAmount = some a → a ≠ 0 →
      s.payment.limitActive = true →
      formatPrice price s = min price a * 100) ∧
    (s.payment.limitActive = false → formatPrice price s = price * 100) ∧
    (s.payment.limitAmount = none → formatPrice price s = price * 100) ∧
    (s.payment.limitAmount = some 0 → formatPrice price s = price * 100) ∧
    (formatPrice 12000 ⟨2, ⟨0, 0, 0, [], true, some 10000⟩⟩ = 1000000) := by
  refine ⟨?_, ?_, ?_, ?_, by norm_num [formatPrice]⟩
  · intro a ha hne hact
    simp [formatPrice, ha, hne, hact]
  · intro h
    unfold formatPrice
    rcases hA : s.payment.limitAmount with _ | a
    · rfl
    · simp [h]
  · intro h
    simp [formatPrice, h]
  · intro h
    simp [formatPrice, h]

/-- C7 witness: the ceiling clamp at concrete settings. -/
theorem C7_formatPrice_ceiling_witness :
    (∀ a : ℚ,
      (⟨2, ⟨0, 0, 0, [], true, some 10000⟩⟩ :
          RetailerSettings).payment.limitAmount = some a → a ≠ 0 →
      (⟨2, ⟨0, 0, 0, [], true, some 10000⟩⟩ :
          RetailerSettings).payment.limitActive = true →
      formatPrice 12000 ⟨2, ⟨0, 0, 0, [], true, some 10000⟩⟩ =
        min 12000 a * 100) ∧
    ((⟨2, ⟨0, 0, 0, [], true, some 10000⟩⟩ :
        RetailerSettings).payment.limitActive = false →
      formatPrice 12000 ⟨2, ⟨0, 0, 0, [], true, some 10000⟩⟩ =
        12000 * 100) ∧
    ((⟨2, ⟨0, 0, 0, [], true, some 10000⟩⟩ :
        RetailerSettings).payment.limitAmount = none →
      formatPrice 12000 ⟨2, ⟨0, 0, 0, [], true, some 10000⟩⟩ =
        12000 * 100) ∧
    ((⟨2, ⟨0, 0, 0, [], true, some 10000⟩⟩ :
        RetailerSettings).payment.limitAmount = some 0 →
      formatPrice 12000 ⟨2, ⟨0, 0, 0, [], true, some 10000⟩⟩ =
        12000 * 100) ∧
    (formatPrice 12000 ⟨2, ⟨0, 0, 0, [], true, some 10000⟩⟩ = 1000000) :=
  C7_formatPrice_ceiling 12000 ⟨2, ⟨0, 0, 0, [], true, some 10000⟩⟩

/-- C4: the eligibility filter as shipped does not behave as claimed.
For an item whose product's tags have an empty intersection with the
configured service-level codes, the claim requires the empty list; the
source keeps the item and attaches the product's original tags, because
the products.map(productFilterTags).filter(...) result is computed and
then discarded.  The variant that assigns that result (the behaviour the
module's own documentation describes) returns the empty list on the same
input, and on a matching product attaches exactly the intersection. -/
theorem C4_filter_discards_tag_filter :
    (filterDeliverightProducts [⟨1, ["not-a-service-code"]⟩]
        [⟨1, 1000, 1, []⟩] =
      [⟨1, 1000, 1, ["not-a-service-code"]⟩]) ∧
    (filterDeliverightProducts [⟨1, ["not-a-service-code"]⟩]
        [⟨1, 1000, 1, []⟩] ≠ []) ∧
    (filterDeliverightProductsIntended [⟨1, ["not-a-service-code"]⟩]
        [⟨1, 1000, 1, []⟩] = []) ∧
    (filterDeliverightProducts [⟨2, ["wg", "clearance"]⟩]
        [⟨2, 1000, 1, []⟩] =
      [⟨2, 1000, 1, ["wg", "clearance"]⟩]) ∧
    (filterDeliverightProductsIntended [⟨2, ["wg", "clearance"]⟩]
        [⟨2, 1000, 1, []⟩] =
      [⟨2, 1000, 1, ["wg"]⟩]) := by
  refine ⟨?_, ?_, ?_, ?_, ?_⟩ <;> decide

/-- C10: in the checkout quote path, a retailer with delivery_type 1
(LAST_MILE_ONLY) has the rate request's origin postal code overwritten
with the literal "fob" before filtering and rate calculation, so every
shipping-rate query issued for the quote carries pickup_region "fob";
for any other delivery_type the origin postal code passes through
unchanged. -/
theorem C10_fob_origin_rewrite (identifier : String) (retailer : Retailer)
    (req : RateRequest) (products : List Product) :
    (retailer.settings.delivery_type = LAST_MILE_ONLY →
      (carrierAdjustOrigin retailer.settings.delivery_type
          req).origin_postal_code = "fob" ∧
      ∀ q ∈ carrierHandlerRequests identifier retailer req products,
        q.pickup_region = "fob") ∧
    (retailer.settings.delivery_type ≠ LAST_MILE_ONLY →
      carrierAdjustOrigin retailer.settings.delivery_type req = req ∧
      ∀ q ∈ carrierHandlerRequests identifier retailer req products,
        q.pickup_region = req.origin_postal_code) := by
  constructor
  · intro h
    constructor
    · simp [carrierAdjustOrigin, h]
    · intro q hq
      simp only [carrierHandlerRequests, List.mem_map] at hq
      obtain ⟨s, _, rfl⟩ := hq
      simp [rateRequestParams, carrierAdjustOrigin, h]
  · intro h
    constructor
    · simp [carrierAdjustOrigin, h]
    · intro q hq
      simp only [carrierHandlerRequests, List.mem_map] at hq
      obtain ⟨s, _, rfl⟩ := hq
      simp [rateRequestParams, carrierAdjustOrigin, h]

/-- C10 witness: at delivery_type 1 the single issued query carries
pickup_region "fob", and at delivery_type 2 the origin is untouched. -/
theorem C10_fob_origin_rewrite_witness :
    ((⟨"1", ⟨1, ⟨0, 0, 0, [], false, none⟩⟩⟩ :
        Retailer).settings.delivery_type = LAST_MILE_ONLY →
      (carrierAdjustOrigin
          (⟨"1", ⟨1, ⟨0, 0, 0, [], false, none⟩⟩⟩ :
            Retailer).settings.delivery_type
          ⟨"07001", "10001", [⟨2, 1000, 1, []⟩]⟩).origin_postal_code =
        "fob" ∧
      ∀ q ∈ carrierHandlerRequests "shop.example"
          ⟨"1", ⟨1, ⟨0, 0, 0, [], false, none⟩⟩⟩
          ⟨"07001", "10001", [⟨2, 1000, 1, []⟩]⟩ [⟨2, ["wg"]⟩],
        q.pickup_region = "fob") ∧
    ((⟨"1", ⟨1, ⟨0, 0, 0, [], false, none⟩⟩⟩ :
        Retailer).settings.delivery_type ≠ LAST_MILE_ONLY →
      carrierAdjustOrigin
          (⟨"1", ⟨1, ⟨0, 0, 0, [], false, none⟩⟩⟩ :
            Retailer).settings.delivery_type
          ⟨"07001", "10001", [⟨2, 1000, 1, []⟩]⟩ =
        ⟨"07001", "10001", [⟨2, 1000, 1, []⟩]⟩ ∧
      ∀ q ∈ carrierHandlerRequests "shop.example"
          ⟨"1", ⟨1, ⟨0, 0, 0, [], false, none⟩⟩⟩
          ⟨"07001", "10001", [⟨2, 1000, 1, []⟩]⟩ [⟨2, ["wg"]⟩],
        q.pickup_region = "07001") :=
  C10_fob_origin_rewrite "shop.example"
    ⟨"1", ⟨1, ⟨0, 0, 0, [], false, none⟩⟩⟩
    ⟨"07001", "10001", [⟨2, 1000, 1, []⟩]⟩ [⟨2, ["wg"]⟩]

/-- C9 counterexample: a quote with one eligible item tagged "wg" whose
rate calculation fails does not omit that service level from the
returned rate list, contrary to the claim; the handler pushes the entry
with total_price null (none). -/
theorem C9_failed_level_not_omitted_counterexample :
    (carrierRates [⟨1, 1000, 1, ["wg"]⟩] (fun _ => none) =
      [⟨"wg", none⟩]) ∧
    (carrierRates [⟨1, 1000, 1, ["wg"]⟩] (fun _ => none) ≠ []) ∧
    (∃ e ∈ carrierRates [⟨1, 1000, 1, ["wg"]⟩] (fun _ => none),
      e.code = "wg" ∧ e.total_price = none) := by
  refine ⟨by decide, by decide, ⟨⟨"wg", none⟩, by decide, by decide⟩⟩

/-- C9 amended: a rate-calculation failure for one service level is
isolated — that level's entry is returned with total_price null rather
than being omitted, every entry's total_price equals its own level's
calculation outcome, changing one level's outcome leaves the other
levels' entries unchanged, and the endpoint responds 200 even when zero
eligible rates remain. -/
theorem C9_quote_failure_isolated (retailer : Retailer)
    (req : RateRequest) (products : List Product)
    (items : List CartItem) (calcRate : String → Option ℚ) :
    ((carrierEndpoint retailer req products calcRate).1 = 200) ∧
    (∀ e ∈ carrierRates items calcRate, e.total_price = calcRate e.code) ∧
    (∀ calcRate2 : String → Option ℚ, ∀ s0 : String,
      (∀ s, s ≠ s0 → calcRate s = calcRate2 s) →
      (carrierRates items calcRate).filter
          (fun e => decide (e.code ≠ s0)) =
        (carrierRates items calcRate2).filter
          (fun e => decide (e.code ≠ s0))) := by
  refine ⟨rfl, ?_, ?_⟩
  · intro e he
    unfold carrierRates at he
    by_cases hlen : items.length > 0
    · simp only [hlen, if_pos, List.mem_map] at he
      obtain ⟨s, _, rfl⟩ := he
      rfl
    · simp [hlen] at he
  · intro calcRate2 s0 hagree
    unfold carrierRates
    by_cases hlen : items.length > 0
    · simp only [hlen, if_pos]
      rw [List.filter_map, List.filter_map]
      apply List.map_congr_left
      intro s hs
      have hne : s ≠ s0 := by
        have := List.of_mem_filter hs
        simpa using this
      simp [hagree s hne]
    · simp [hlen]

/-- C9 witness: the amended facts at a quote with one "wg"-tagged item
and a failing calculation. -/
theorem C9_quote_failure_isolated_witness :
    ((carrierEndpoint ⟨"1", ⟨2, ⟨0, 0, 0, [], false, none⟩⟩⟩
        ⟨"07001", "10001", [⟨1, 1000, 1, []⟩]⟩ [⟨1, ["wg"]⟩]
        (fun _ => none)).1 = 200) ∧
    (∀ e ∈ carrierRates [⟨1, 1000, 1, ["wg"]⟩] (fun _ => none),
      e.total_price = (fun _ => (none : Option ℚ)) e.code) ∧
    (∀ calcRate2 : String → Option ℚ, ∀ s0 : String,
      (∀ s, s ≠ s0 → (fun _ => (none : Option ℚ)) s = calcRate2 s) →
      (carrierRates [⟨1, 1000, 1, ["wg"]⟩]
          (fun _ => (none : Option ℚ))).filter
          (fun e => decide (e.code ≠ s0)) =
        (carrierRates [⟨1, 1000, 1, ["wg"]⟩] calcRate2).filter
          (fun e => decide (e.code ≠ s0))) :=
  C9_quote_failure_isolated ⟨"1", ⟨2, ⟨0, 0, 0, [], false, none⟩⟩⟩
    ⟨"07001", "10001", [⟨1, 1000, 1, []⟩]⟩ [⟨1, ["wg"]⟩]
    [⟨1, 1000, 1, ["wg"]⟩] (fun _ => none)

/-- C3 counterexample: a line item covered by two fulfillments, the
first without a location identifier and the second with one whose
looked-up, mapped location is complete.  The claim's tier (2) says that
second fulfillment's location is used and the registered-locations list
is never queried; the source only examines the first fulfillment that
contains the line item, finds no location identifier on it, and falls
through to the registered-locations tier. -/
theorem C3_fulfillment_selection_counterexample :
    (let li : LineItem := ⟨7, "sku", "item", 1, 100, 1000, "v", 70, none⟩
     let f1 : Fulfillment := ⟨1, "success", none, [7]⟩
     let f2 : Fulfillment := ⟨2, "success", some 5, [7]⟩
     let loc5 : GqlLocation :=
       ⟨"Warehouse", ⟨"1 Main St", "", "New York", "NY", "10001",
         "212-555-0100"⟩⟩
     let reg : GqlLocation :=
       ⟨"Default", ⟨"9 Other Rd", "", "Los Angeles", "CA", "90001",
         "310-555-0100"⟩⟩
     let res := resolveOrigin li [f1, f2]
       (fun n => if n = 5 then some loc5 else none) [reg]
     (f2.line_items.contains li.id = true) ∧
     (f2.location_id.isSome = true) ∧
     (tier2Complete (mapFulfillmentLocation loc5) = true) ∧
     (res.2.locationsListQueried = true) ∧
     (res.1 ≠ mapFulfillmentLocation loc5)) := by
  decide

/-- C3 amended: origin resolution follows the three-tier precedence with
the fulfillment of tier (2) being the first fulfillment whose line-item
set contains the line item, used only when that same fulfillment carries
a location identifier: (1) a complete attached origin is returned as-is
with zero platform queries; (2) otherwise, when the first containing
fulfillment has a location identifier and its looked-up, mapped location
is complete, that mapped location is returned and the
registered-locations list is never queried; (3) otherwise the
registered-locations list is queried and the first of the first 10
locations with address1, city, zip and phone present is used, else the
very first location with empty-string substitutions and a single space
for a missing city. -/
theorem C3_origin_resolution_tiers (li : LineItem)
    (fulfillments : List Fulfillment)
    (lookupLocation : Nat → Option GqlLocation)
    (registered : List GqlLocation) :
    (∀ o : Origin, li.origin_location = some o →
      hasValidOrigin li.origin_location = true →
      resolveOrigin li fulfillments lookupLocation registered =
        (o, ⟨false, false⟩)) ∧
    (∀ f lid loc, hasValidOrigin li.origin_location = false →
      findFulfillment li fulfillments = some f →
      f.location_id = some lid →
      lookupLocation lid = some loc →
      tier2Complete (mapFulfillmentLocation loc) = true →
      resolveOrigin li fulfillments lookupLocation registered =
        (mapFulfillmentLocation loc, ⟨true, false⟩)) ∧
    (hasValidOrigin li.origin_location = false →
      (∀ m, tier2Mapped li fulfillments lookupLocation = some m →
        tier2Complete m = false) →
      ((resolveOrigin li fulfillments lookupLocation
          registered).2.locationsListQueried = true) ∧
      (∀ loc, (registered.take 10).find? defaultLocComplete = some loc →
        (resolveOrigin li fulfillments lookupLocation registered).1 =
          mapDefaultLocation loc) ∧
      (∀ l0, (registered.take 10).find? defaultLocComplete = none →
        (registered.take 10).head? = some l0 →
        (resolveOrigin li fulfillments lookupLocation registered).1 =
          mapDefaultLocation l0)) := by
  refine ⟨?_, ?_, ?_⟩
  · intro o ho hvalid
    rw [ho] at hvalid
    unfold resolveOrigin
    rw [ho]
    simp [hvalid]
  · intro f lid loc hvalid hf hlid hloc hcomp
    have hmapped : tier2Mapped li fulfillments lookupLocation =
        some (mapFulfillmentLocation loc) := by
      simp [tier2Mapped, hf, hlid, hloc]
    have hq : tier2Queries li fulfillments = true := by
      simp [tier2Queries, hf, hlid]
    simp [resolveOrigin, hvalid, hmapped, hcomp, hq]
  · intro hvalid hincomp
    rcases hm : tier2Mapped li fulfillments lookupLocation with _ | m
    · refine ⟨?_, ?_, ?_⟩
      · simp [resolveOrigin, hvalid, hm]
      · intro loc hloc
        simp [resolveOrigin, hvalid, hm, tier3Resolve, hloc]
      · intro l0 hnone hhead
        simp [resolveOrigin, hvalid, hm, tier3Resolve, hnone, hhead]
    · have hmc : tier2Complete m = false := hincomp m hm
      refine ⟨?_, ?_, ?_⟩
      · simp [resolveOrigin, hvalid, hm, hmc]
      · intro loc hloc
        simp [resolveOrigin, hvalid, hm, hmc, tier3Resolve, hloc]
      · intro l0 hnone hhead
        simp [resolveOrigin, hvalid, hm, hmc, tier3Resolve, hnone, hhead]

/-- C3 witness: the three tiers at concrete inputs — a complete attached
origin is kept with zero queries. -/
theorem C3_origin_resolution_tiers_witness :
    (∀ o : Origin,
      (some ⟨"1 Main St", "", "New York", "NY", "10001", "Acme",
        "212-555-0100"⟩ : Option Origin) = some o →
      hasValidOrigin (some ⟨"1 Main St", "", "New York", "NY", "10001",
        "Acme", "212-555-0100"⟩) = true →
      resolveOrigin
        ⟨7, "sku", "item", 1, 100, 1000, "v", 70,
          some ⟨"1 Main St", "", "New York", "NY", "10001", "Acme",
            "212-555-0100"⟩⟩ [] (fun _ => none) [] =
        (o, ⟨false, false⟩)) ∧
    (∀ f lid loc,
      hasValidOrigin (some ⟨"1 Main St", "", "New York", "NY", "10001",
        "Acme", "212-555-0100"⟩) = false →
      findFulfillment
        ⟨7, "sku", "item", 1, 100, 1000, "v", 70,
          some ⟨"1 Main St", "", "New York", "NY", "10001", "Acme",
            "212-555-0100"⟩⟩ [] = some f →
      f.location_id = some lid →
      (fun _ => (none : Option GqlLocation)) lid = some loc →
      tier2Complete (mapFulfillmentLocation loc) = true →
      resolveOrigin
        ⟨7, "sku", "item", 1, 100, 1000, "v", 70,
          some ⟨"1 Main St", "", "New York", "NY", "10001", "Acme",
            "212-555-0100"⟩⟩ [] (fun _ => none) [] =
        (mapFulfillmentLocation loc, ⟨true, false⟩)) ∧
    (hasValidOrigin (some ⟨"1 Main St", "", "New York", "NY", "10001",
        "Acme", "212-555-0100"⟩) = false →
      (∀ m, tier2Mapped
          ⟨7, "sku", "item", 1, 100, 1000, "v", 70,
            some ⟨"1 Main St", "", "New York", "NY", "10001", "Acme",
              "212-555-0100"⟩⟩ [] (fun _ => none) = some m →
        tier2Complete m = false) →
      ((resolveOrigin
          ⟨7, "sku", "item", 1, 100, 1000, "v", 70,
            some ⟨"1 Main St", "", "New York", "NY", "10001", "Acme",
              "212-555-0100"⟩⟩ [] (fun _ => none)
          []).2.locationsListQueried = true) ∧
      (∀ loc, (([] : List GqlLocation).take 10).find? defaultLocComplete =
          some loc →
        (resolveOrigin
          ⟨7, "sku", "item", 1, 100, 1000, "v", 70,
            some ⟨"1 Main St", "", "New York", "NY", "10001", "Acme",
              "212-555-0100"⟩⟩ [] (fun _ => none) []).1 =
          mapDefaultLocation loc) ∧
      (∀ l0, (([] : List GqlLocation).take 10).find? defaultLocComplete =
          none →
        (([] : List GqlLocation).take 10).head? = some l0 →
        (resolveOrigin
          ⟨7, "sku", "item", 1, 100, 1000, "v", 70,
            some ⟨"1 Main St", "", "New York", "NY", "10001", "Acme",
              "212-555-0100"⟩⟩ [] (fun _ => none) []).1 =
          mapDefaultLocation l0)) :=
  C3_origin_resolution_tiers
    ⟨7, "sku", "item", 1, 100, 1000, "v", 70,
      some ⟨"1 Main St", "", "New York", "NY", "10001", "Acme",
        "212-555-0100"⟩⟩ [] (fun _ => none) []

/-- C6 counterexample: with round_nearest = [160000] and price 50000,
the smallest configured value strictly greater than the price is 160000,
but the strategy returns the price unchanged because the loop's diff
starts at 100000 and 160000 - 50000 = 110000 is not below it. -/
theorem C6_round_nearest_counterexample :
    (getPriceByPaymentType 50000
        ⟨2, ⟨4, 0, 0, [160000], false, none⟩⟩ = some 50000) ∧
    ((160000 : ℚ) ∈ [(160000 : ℚ)] ∧ (50000 : ℚ) < 160000) ∧
    (getPriceByPaymentType 50000
        ⟨2, ⟨4, 0, 0, [160000], false, none⟩⟩ ≠ some 160000) := by
  refine ⟨?_, by norm_num, ?_⟩ <;>
    norm_num [getPriceByPaymentType, roundNearestScan, rnStep,
      List.foldl_cons, List.foldl_nil]

/-- C6 amended: the ROUND_NEAREST_NUMBER strategy returns the smallest
configured value strictly greater than the price provided that value
exceeds the price by less than 100000 and is nonzero; when no configured
value is strictly greater, or every strictly greater one overshoots by
at least 100000, it returns the price unchanged, and a zero candidate
(falsy in the source's if-not-p test) also falls back to the price
(concretely, price -50 with [0, 30] yields -50); it never returns a
value below the input price (concretely, [9000, 9500, 10000] with price
8700 yields 9000). -/
theorem C6_round_nearest_strategy (price : ℚ) (s : RetailerSettings)
    (htype : s.payment.type = ROUND_NEAREST_NUMBER) :
    (∀ m, m ∈ s.payment.round_nearest → price < m →
      (∀ n ∈ s.payment.round_nearest, price < n → m ≤ n) →
      m - price < 100000 → m ≠ 0 →
      getPriceByPaymentType price s = some m) ∧
    ((∀ n ∈ s.payment.round_nearest, price < n → 100000 ≤ n - price) →
      getPriceByPaymentType price s = some price) ∧
    (∀ m, m ∈ s.payment.round_nearest → price < m →
      (∀ n ∈ s.payment.round_nearest, price < n → m ≤ n) →
      m - price < 100000 → m = 0 →
      getPriceByPaymentType price s = some price) ∧
    (∀ r, getPriceByPaymentType price s = some r → price ≤ r) ∧
    (getPriceByPaymentType 8700
        ⟨2, ⟨4, 0, 0, [9000, 9500, 10000], false, none⟩⟩ = some 9000) ∧
    (getPriceByPaymentType (-50)
        ⟨2, ⟨4, 0, 0, [0, 30], false, none⟩⟩ = some (-50)) := by
  have hgp : getPriceByPaymentType price s =
      some (match (roundNearestScan price s.payment.round_nearest).1 with
            | none => price
            | some v => if v = 0 then price else v) := by
    simp [getPriceByPaymentType, htype, ROUND_NEAREST_NUMBER]
  refine ⟨?_, ?_, ?_, ?_, by
    norm_num [getPriceByPaymentType, roundNearestScan, rnStep,
      List.foldl_cons, List.foldl_nil], by
    norm_num [getPriceByPaymentType, roundNearestScan, rnStep,
      List.foldl_cons, List.foldl_nil]⟩
  · intro m hmem hgt hmin hgap hne
    rw [hgp, roundNearestScan_eq_min price _ m hmem hgt hmin hgap]
    simp [hne]
  · intro hall
    rw [hgp, roundNearestScan_none price _ hall]
  · intro m hmem hgt hmin hgap hm0
    rw [hgp, roundNearestScan_eq_min price _ m hmem hgt hmin hgap]
    simp [hm0]
  · intro r hr
    rw [hgp] at hr
    rcases hscan : (roundNearestScan price s.payment.round_nearest).1
      with _ | w
    · rw [hscan] at hr
      simp only [Option.some_inj] at hr
      exact le_of_eq hr
    · rw [hscan] at hr
      simp only [Option.some_inj] at hr
      by_cases hw0 : w = 0
      · rw [if_pos hw0] at hr
        exact le_of_eq hr
      · rw [if_neg hw0] at hr
        exact le_of_lt (hr ▸ roundNearestScan_gt price _ w hscan)

/-- C6 witness: the amended statement at price 8700 with the configured
list [9000, 9500, 10000]; the smallest value strictly greater is 9000
and it is returned. -/
theorem C6_round_nearest_strategy_witness :
    (∀ m, m ∈ (⟨2, ⟨4, 0, 0, [9000, 9500, 10000], false, none⟩⟩ :
        RetailerSettings).payment.round_nearest → (8700 : ℚ) < m →
      (∀ n ∈ (⟨2, ⟨4, 0, 0, [9000, 9500, 10000], false, none⟩⟩ :
          RetailerSettings).payment.round_nearest, (8700 : ℚ) < n → m ≤ n) →
      m - 8700 < 100000 → m ≠ 0 →
      getPriceByPaymentType 8700
          ⟨2, ⟨4, 0, 0, [9000, 9500, 10000], false, none⟩⟩ = some m) ∧
    ((∀ n ∈ (⟨2, ⟨4, 0, 0, [9000, 9500, 10000], false, none⟩⟩ :
        RetailerSettings).payment.round_nearest, (8700 : ℚ) < n →
        100000 ≤ n - 8700) →
      getPriceByPaymentType 8700
          ⟨2, ⟨4, 0, 0, [9000, 9500, 10000], false, none⟩⟩ = some 8700) ∧
    (∀ m, m ∈ (⟨2, ⟨4, 0, 0, [9000, 9500, 10000], false, none⟩⟩ :
        RetailerSettings).payment.round_nearest → (8700 : ℚ) < m →
      (∀ n ∈ (⟨2, ⟨4, 0, 0, [9000, 9500, 10000], false, none⟩⟩ :
          RetailerSettings).payment.round_nearest, (8700 : ℚ) < n → m ≤ n) →
      m - 8700 < 100000 → m = 0 →
      getPriceByPaymentType 8700
          ⟨2, ⟨4, 0, 0, [9000, 9500, 10000], false, none⟩⟩ = some 8700) ∧
    (∀ r, getPriceByPaymentType 8700
        ⟨2, ⟨4, 0, 0, [9000, 9500, 10000], false, none⟩⟩ = some r →
      (8700 : ℚ) ≤ r) ∧
    (getPriceByPaymentType 8700
        ⟨2, ⟨4, 0, 0, [9000, 9500, 10000], false, none⟩⟩ = some 9000) ∧
    (getPriceByPaymentType (-50)
        ⟨2, ⟨4, 0, 0, [0, 30], false, none⟩⟩ = some (-50)) :=
  C6_round_nearest_strategy 8700
    ⟨2, ⟨4, 0, 0, [9000, 9500, 10000], false, none⟩⟩ rfl

/-- C8: the transformer always returns a document (it is a total
function; the source's validation pass only logs), and in that document
each line item maps to sku = the line-item sku or else the product id as
a string, weight = grams / 453.592 rounded to 2 decimals (0 when grams
is missing), freight_info.is_fob true exactly when the retailer's
delivery_type equals LAST_MILE_ONLY, and a vendor_info address taken
from the resolved origin; the envelope has customer.company always
empty, customer phone = shipping-address phone else customer phone else
empty, ref_order_number = the order id as a string, and service_level =
the first shipping line's code or "STANDARD" when absent. -/
theorem C8_transformer_fields (data : OrderPayload) (retailer : Retailer)
    (store_id : String) (lookupLocation : Nat → Option GqlLocation)
    (registered : List GqlLocation) :
    ((createDeliverightOrder data retailer store_id lookupLocation
        registered).customer.company = "") ∧
    ((createDeliverightOrder data retailer store_id lookupLocation
        registered).customer.phone1_number =
      (let addr := ((data.shipping_address).orElse
          (fun _ => data.customer_address)).getD ⟨"", "", "", "", "", ""⟩
       if addr.phone ≠ "" then addr.phone
       else match data.customer with
            | some c => c.phone
            | none => "")) ∧
    ((createDeliverightOrder data retailer store_id lookupLocation
        registered).ref_order_number =
      (match data.id with
       | some i => toString i
       | none => "")) ∧
    ((createDeliverightOrder data retailer store_id lookupLocation
        registered).service_level =
      (match data.shipping_lines.head? with
       | some c => if c ≠ "" then c else "STANDARD"
       | none => "STANDARD")) ∧
    ((createDeliverightOrder data retailer store_id lookupLocation
        registered).line_items.length = data.line_items.length) ∧
    (∀ i, (h1 : i < (createDeliverightOrder data retailer store_id
          lookupLocation registered).line_items.length) →
      (h2 : i < data.line_items.length) →
      (let li := data.line_items.get ⟨i, h2⟩
       let origin :=
         (resolveOrigin li data.fulfillments lookupLocation registered).1
       let item := (createDeliverightOrder data retailer store_id
         lookupLocation registered).line_items.get ⟨i, h1⟩
       (item.sku =
         (if li.sku ≠ "" then li.sku else toString li.product_id)) ∧
       (item.weight =
         (if li.grams ≠ 0 then round2 (li.grams / 453.592) else 0)) ∧
       (item.freight_info.is_fob = true ↔
         retailer.settings.delivery_type = LAST_MILE_ONLY) ∧
       (item.freight_info.vendor_info.address =
         ⟨origin.address1, origin.address2, origin.city,
           origin.province_code, origin.zip⟩) ∧
       (item.freight_info.vendor_info.company = origin.name) ∧
       (item.freight_info.vendor_info.phone = origin.phone))) := by
  refine ⟨rfl, rfl, rfl, rfl, by simp [createDeliverightOrder], ?_⟩
  intro i h1 h2
  simp only [createDeliverightOrder, List.get_eq_getElem,
    List.getElem_map, mkDrlItem]
  simp [LAST_MILE_ONLY]

/-- C8 witness: the field equations at a concrete order with one line
item, no attached origin, no fulfillments and no registered
locations. -/
theorem C8_transformer_fields_witness :
    ((createDeliverightOrder
        ⟨some 1001, "#1001", some 1001,
          some ⟨"Ann", "Lee", "a@b.c", "555-0000"⟩,
          some ⟨"2 Elm St", "", "Boston", "MA", "02101", "617-555-0100"⟩,
          none, [⟨7, "sku7", "Chair", 1, 100, 1000, "v", 70, none⟩], [],
          ["wg"]⟩
        ⟨"1", ⟨1, ⟨0, 0, 0, [], false, none⟩⟩⟩ "shop.example"
        (fun _ => none) []).customer.company = "") ∧
    ((createDeliverightOrder
        ⟨some 1001, "#1001", some 1001,
          some ⟨"Ann", "Lee", "a@b.c", "555-0000"⟩,
          some ⟨"2 Elm St", "", "Boston", "MA", "02101", "617-555-0100"⟩,
          none, [⟨7, "sku7", "Chair", 1, 100, 1000, "v", 70, none⟩], [],
          ["wg"]⟩
        ⟨"1", ⟨1, ⟨0, 0, 0, [], false, none⟩⟩⟩ "shop.example"
        (fun _ => none) []).customer.phone1_number =
      (let addr := ((some ⟨"2 Elm St", "", "Boston", "MA", "02101",
          "617-555-0100"⟩ : Option AddrInput).orElse
          (fun _ => none)).getD ⟨"", "", "", "", "", ""⟩
       if addr.phone ≠ "" then addr.phone
       else match (some ⟨"Ann", "Lee", "a@b.c", "555-0000"⟩ :
           Option CustomerInput) with
            | some c => c.phone
            | none => "")) ∧
    ((createDeliverightOrder
        ⟨some 1001, "#1001", some 1001,
          some ⟨"Ann", "Lee", "a@b.c", "555-0000"⟩,
          some ⟨"2 Elm St", "", "Boston", "MA", "02101", "617-555-0100"⟩,
          none, [⟨7, "sku7", "Chair", 1, 100, 1000, "v", 70, none⟩], [],
          ["wg"]⟩
        ⟨"1", ⟨1, ⟨0, 0, 0, [], false, none⟩⟩⟩ "shop.example"
        (fun _ => none) []).ref_order_number =
      (match (some 1001 : Option Nat) with
       | some i => toString i
       | none => "")) ∧
    ((createDeliverightOrder
        ⟨some 1001, "#1001", some 1001,
          some ⟨"Ann", "Lee", "a@b.c", "555-0000"⟩,
          some ⟨"2 Elm St", "", "Boston", "MA", "02101", "617-555-0100"⟩,
          none, [⟨7, "sku7", "Chair", 1, 100, 1000, "v", 70, none⟩], [],
          ["wg"]⟩
        ⟨"1", ⟨1, ⟨0, 0, 0, [], false, none⟩⟩⟩ "shop.example"
        (fun _ => none) []).service_level =
      (match (["wg"] : List String).head? with
       | some c => if c ≠ "" then c else "STANDARD"
       | none => "STANDARD")) ∧
    ((createDeliverightOrder
        ⟨some 1001, "#1001", some 1001,
          some ⟨"Ann", "Lee", "a@b.c", "555-0000"⟩,
          some ⟨"2 Elm St", "", "Boston", "MA", "02101", "617-555-0100"⟩,
          none, [⟨7, "sku7", "Chair", 1, 100, 1000, "v", 70, none⟩], [],
          ["wg"]⟩
        ⟨"1", ⟨1, ⟨0, 0, 0, [], false, none⟩⟩⟩ "shop.example"
        (fun _ => none) []).line_items.length =
      ([⟨7, "sku7", "Chair", 1, 100, 1000, "v", 70, none⟩] :
        List LineItem).length) ∧
    (∀ i, (h1 : i < (createDeliverightOrder
          ⟨some 1001, "#1001", some 1001,
            some ⟨"Ann", "Lee", "a@b.c", "555-0000"⟩,
            some ⟨"2 Elm St", "", "Boston", "MA", "02101",
              "617-555-0100"⟩,
            none, [⟨7, "sku7", "Chair", 1, 100, 1000, "v", 70, none⟩], [],
            ["wg"]⟩
          ⟨"1", ⟨1, ⟨0, 0, 0, [], false, none⟩⟩⟩ "shop.example"
          (fun _ => none) []).line_items.length) →
      (h2 : i < ([⟨7, "sku7", "Chair", 1, 100, 1000, "v", 70, none⟩] :
          List LineItem).length) →
      (let li := ([⟨7, "sku7", "Chair", 1, 100, 1000, "v", 70, none⟩] :
          List LineItem).get ⟨i, h2⟩
       let origin := (resolveOrigin li [] (fun _ => none) []).1
       let item := (createDeliverightOrder
          ⟨some 1001, "#1001", some 1001,
            some ⟨"Ann", "Lee", "a@b.c", "555-0000"⟩,
            some ⟨"2 Elm St", "", "Boston", "MA", "02101",
              "617-555-0100"⟩,
            none, [⟨7, "sku7", "Chair", 1, 100, 1000, "v", 70, none⟩], [],
            ["wg"]⟩
          ⟨"1", ⟨1, ⟨0, 0, 0, [], false, none⟩⟩⟩ "shop.example"
          (fun _ => none) []).line_items.get ⟨i, h1⟩
       (item.sku =
         (if li.sku ≠ "" then li.sku else toString li.product_id)) ∧
       (item.weight =
         (if li.grams ≠ 0 then round2 (li.grams / 453.592) else 0)) ∧
       (item.freight_info.is_fob = true ↔
         (⟨"1", ⟨1, ⟨0, 0, 0, [], false, none⟩⟩⟩ :
           Retailer).settings.delivery_type = LAST_MILE_ONLY) ∧
       (item.freight_info.vendor_info.address =
         ⟨origin.address1, origin.address2, origin.city,
           origin.province_code, origin.zip⟩) ∧
       (item.freight_info.vendor_info.company = origin.name) ∧
       (item.freight_info.vendor_info.phone = origin.phone))) :=
  C8_transformer_fields
    ⟨some 1001, "#1001", some 1001,
      some ⟨"Ann", "Lee", "a@b.c", "555-0000"⟩,
      some ⟨"2 Elm St", "", "Boston", "MA", "02101", "617-555-0100"⟩,
      none, [⟨7, "sku7", "Chair", 1, 100, 1000, "v", 70, none⟩], [],
      ["wg"]⟩
    ⟨"1", ⟨1, ⟨0, 0, 0, [], false, none⟩⟩⟩ "shop.example"
    (fun _ => none) []

end Deliveright
